import Mathlib

/-
Verification of the SQL Safety-Rail Engine (apps/ml/app/services/sql_validator.py,
cost_estimator.py, query_cache.py) against its specification.

Shallow embedding conventions:
  * Python str values are Lean String; Python floats are modelled as Rat
    (all constants in the code are small decimals, so rational arithmetic
    agrees with the float arithmetic on every comparison performed).
  * sqlparse token trees are modelled by the inductive type Tok below:
    an atom carries its ttype and text, a group is a TokenList (ttype None).
    sqlparse.parse itself is a third-party parser and is passed to the
    pipeline as an oracle of type String -> Except String (List (List Tok));
    an Except.error models a raised exception, Except.ok the parsed tuple.
  * psycopg2 / EXPLAIN probing (SQLValidator._get_query_cost) is an oracle
    String -> Except String (Rat x Int); Except.error models the raised
    exception, Except.ok (cost, rows) a successful plan probe.
  * redis / hashlib.sha256 in query_cache.py: the digest is an oracle
    String -> String applied to the combined key input string.
-/

namespace BI

/-! ## Python string primitives -/

/-- Python str.upper restricted to ASCII (keywords and SQL text in scope are ASCII). -/
def upperStr (s : String) : String := ⟨s.data.map Char.toUpper⟩

/-- Python str.lower restricted to ASCII. -/
def lowerStr (s : String) : String := ⟨s.data.map Char.toLower⟩

/-- Python str whitespace class (the characters stripped by str.strip and matched
by the regex class backslash-s, restricted to ASCII). -/
def isPyWhitespace (c : Char) : Bool :=
  c == ' ' || c == '\t' || c == '\n' || c == '\x0d' || c == '\x0b' || c == '\x0c'

/-- Remove the characters satisfying p from both ends of a list. -/
def stripList (p : Char → Bool) (l : List Char) : List Char :=
  ((l.dropWhile p).reverse.dropWhile p).reverse

/-- Python str.strip() (no argument: strips whitespace from both ends). -/
def pyStrip (s : String) : String := ⟨stripList isPyWhitespace s.data⟩

/-- Python str.strip(",") (strips comma characters from both ends). -/
def stripCommas (s : String) : String := ⟨stripList (fun c => c == ',') s.data⟩

/-- Substring occurrence test on character lists. -/
def hasSubList (p : List Char) : List Char → Bool
  | [] => p.isEmpty
  | c :: r => p.isPrefixOf (c :: r) || hasSubList p r

/-- Python `pat in s` substring containment. -/
def containsSub (pat s : String) : Bool := hasSubList pat.data s.data

/-- Python str.count: number of non-overlapping occurrences, scanning left to
right; skip counts characters still covered by the previous match. -/
def countSubAux (p : List Char) (skip : Nat) : List Char → Nat
  | [] => 0
  | c :: r =>
    match skip with
    | k + 1 => countSubAux p k r
    | 0 =>
      if !p.isEmpty && p.isPrefixOf (c :: r) then
        1 + countSubAux p (p.length - 1) r
      else
        countSubAux p 0 r

/-- Python str.count on character lists. -/
def countSubList (p : List Char) (s : List Char) : Nat := countSubAux p 0 s

/-- Python s.count(pat) on strings. -/
def countSub (pat s : String) : Nat := countSubList pat.data s.data

/-- Regex word characters (the class backslash-w, ASCII fragment): used to model
the word-boundary assertion backslash-b of Python re. -/
def isWordChar (c : Char) : Bool := c.isAlphanum || c == '_'

/-- kw occurs at the head of s and the character after it (if any) is not a
word character: right-hand word boundary of re.search. -/
def wordAt (kw s : List Char) : Bool :=
  kw.isPrefixOf s &&
    (match s.drop kw.length with
     | [] => true
     | c :: _ => !isWordChar c)

/-- Scan of s for a whole-word occurrence of kw; prevWord records whether the
previous character was a word character (left-hand boundary of backslash-b). -/
def containsWordAux (kw : List Char) (prevWord : Bool) : List Char → Bool
  | [] => false
  | c :: r => (!prevWord && wordAt kw (c :: r)) || containsWordAux kw (isWordChar c) r

/-- Model of re.search(r"\b" ++ kw ++ r"\b", s) ≠ None for a keyword kw made of
word characters. -/
def containsWord (kw s : String) : Bool := containsWordAux kw.data false s.data

/-! ## SQLValidator.DANGEROUS_PATTERNS (regex matchers over the raw text)

Each Python pattern from the source list is modelled by a dedicated matcher;
re.IGNORECASE is applied by lowering both sides; the regex dot does not match
a newline. -/

/-- Matcher for the regex pattern "; backslash-s * KW" (kw given lower-cased):
a semicolon followed by any run of whitespace and then kw, case-insensitively.
Since kw starts with a non-whitespace character, the maximal-whitespace run is
the only viable match of the starred class. -/
def semiThenKw (kw : List Char) : List Char → Bool
  | [] => false
  | c :: r =>
    (c == ';' && kw.isPrefixOf ((r.dropWhile isPyWhitespace).map Char.toLower)) ||
      semiThenKw kw r

/-- Case-insensitive substring containment (re.search of a literal pattern with
re.IGNORECASE). -/
def hasSubCI (pat s : String) : Bool :=
  hasSubList (pat.data.map Char.toLower) (s.data.map Char.toLower)

/-- After an opening slash-star: is there a closing star-slash before the next
newline (regex dot does not cross a newline)? -/
def commentClose : List Char → Bool
  | '*' :: '/' :: _ => true
  | '\n' :: _ => false
  | _ :: r => commentClose r
  | [] => false

/-- Does a C-style comment open at the head of the list and close on the same line? -/
def hasCCommentAt (s : List Char) : Bool :=
  match s with
  | '/' :: '*' :: rest => commentClose rest
  | _ => false

/-- Matcher for the regex pattern slash-star dot-star star-slash. -/
def hasCComment : List Char → Bool
  | [] => false
  | c :: r => hasCCommentAt (c :: r) || hasCComment r

/-- Matcher at one position for "waitfor backslash-s + delay" (case-insensitive):
WAITFOR, at least one whitespace character, then DELAY. -/
def waitforAt (l : List Char) : Bool :=
  "waitfor".data.isPrefixOf (l.map Char.toLower) &&
    (match l.drop 7 with
     | [] => false
     | c :: r =>
       isPyWhitespace c &&
         "delay".data.isPrefixOf ((r.dropWhile isPyWhitespace).map Char.toLower))

/-- Scan for the "waitfor backslash-s + delay" pattern anywhere in the text. -/
def hasWaitforDelay : List Char → Bool
  | [] => false
  | c :: r => waitforAt (c :: r) || hasWaitforDelay r

/-! ## sqlparse token trees -/

/-- The sqlparse ttype constants that appear in the validator code paths.
An atom of kind name corresponds exactly to sqlparse.tokens.Name; keyword to
sqlparse.tokens.Keyword; dml to sqlparse.tokens.DML (a sub-kind of Keyword);
ddl to other keyword sub-kinds (e.g. Keyword.DDL). -/
inductive TType where
  | dml
  | keyword
  | ddl
  | name
  | wildcard
  | whitespace
  | punctuation
  | number
  | operator
  | strlit
  | other
deriving DecidableEq

/-- A sqlparse token: an atom carries its ttype and raw text; a group is a
TokenList (ttype None, e.g. Identifier, IdentifierList, Comparison, Where). -/
inductive Tok where
  | atom (tt : TType) (v : String)
  | group (sub : List Tok)

mutual

/-- Python str(token): the raw text covered by a token (flattening groups). -/
def tokStr : Tok → String
  | .atom _ v => v
  | .group sub => tokStrList sub

/-- Python str over a list of tokens, concatenated. -/
def tokStrList : List Tok → String
  | [] => ""
  | t :: ts => tokStr t ++ tokStrList ts

end

/-- sqlparse token.is_keyword: true exactly when the ttype lies in the Keyword
hierarchy (Keyword itself, DML, DDL); groups have ttype None, hence false. -/
def ttypeIsKeywordKind : TType → Bool
  | .dml => true
  | .keyword => true
  | .ddl => true
  | _ => false

/-- token.is_keyword for our token model. -/
def tokIsKeyword : Tok → Bool
  | .atom tt _ => ttypeIsKeywordKind tt
  | .group _ => false

/-- A statement, as used by the validator, is the flat list statement.tokens. -/
abbrev Statement := List Tok

/-! ## SQLValidator (apps/ml/app/services/sql_validator.py) -/

/-- SQLValidator.DANGEROUS_KEYWORDS (source order). -/
def DANGEROUS_KEYWORDS : List String :=
  ["DROP", "DELETE", "TRUNCATE", "ALTER", "CREATE", "INSERT", "UPDATE",
   "GRANT", "REVOKE", "EXEC", "EXECUTE", "CALL", "MERGE", "REPLACE"]

/-- SQLValidator._check_dangerous_keywords: whole-word regex search for each
deny-listed keyword over the upper-cased raw text, collecting matches in
deny-list order. -/
def check_dangerous_keywords (sql : String) : List String :=
  DANGEROUS_KEYWORDS.filter (fun kw => containsWord kw (upperStr sql))

/-- SQLValidator._check_dangerous_patterns: true when any pattern of
DANGEROUS_PATTERNS matches the raw text (case-insensitively). -/
def check_dangerous_patterns (sql : String) : Bool :=
  semiThenKw "drop".data sql.data ||
  semiThenKw "delete".data sql.data ||
  containsSub "--" sql ||
  hasCComment sql.data ||
  hasSubCI "xp_cmdshell" sql ||
  hasSubCI "pg_sleep" sql ||
  hasSubCI "benchmark" sql ||
  hasWaitforDelay sql.data

/-- SQLValidator._get_statement_type: the value (upper-cased) of the first
top-level token whose ttype is DML, else "UNKNOWN". -/
def get_statement_type : Statement → String
  | [] => "UNKNOWN"
  | .atom .dml v :: _ => upperStr v
  | _ :: rest => get_statement_type rest

/-- The keyword names at which the bare-identifier branch of _extract_tables
refuses to treat a token as a table name. -/
def TABLE_STOP_WORDS : List String :=
  ["WHERE", "JOIN", "LEFT", "RIGHT", "INNER", "OUTER", "ON", "GROUP", "ORDER", "LIMIT"]

/-- The inner loop of _extract_tables over a TokenList's sub-tokens: collect
every item whose ttype is Name or None (groups) and which is not a keyword,
as its stripped text. -/
def collectFromGroup : List Tok → List String
  | [] => []
  | item :: rest =>
    let ok : Bool :=
      match item with
      | .group _ => true
      | .atom .name _ => true
      | .atom _ _ => false
    if ok then
      let nm := stripCommas (pyStrip (tokStr item))
      if nm ≠ "" then nm :: collectFromGroup rest else collectFromGroup rest
    else
      collectFromGroup rest

/-- Is this token the top-level FROM keyword (token.ttype is Keyword and
token.value.upper() == "FROM")? -/
def isFromKw : Tok → Bool
  | .atom .keyword v => upperStr v == "FROM"
  | _ => false

/-- One iteration of the _extract_tables loop body (before the trailing FROM
check): given the current token and the from_seen flag, the list of names
appended and the updated flag.  Faithful to the source: a TokenList seen
while from_seen is set contributes its collectible sub-tokens and leaves
from_seen set; a bare Name atom whose stripped text is non-empty and not a
stop word is collected and clears from_seen; every other token leaves the
flag unchanged. -/
def extract_step (t : Tok) (fromSeen : Bool) : List String × Bool :=
  if fromSeen then
    match t with
    | .group sub => (collectFromGroup sub, true)
    | .atom tt v =>
      if tt = .name then
        let nm := stripCommas (pyStrip v)
        if nm ≠ "" ∧ upperStr nm ∉ TABLE_STOP_WORDS then ([nm], false)
        else ([], true)
      else ([], true)
  else ([], false)

/-- The token walk of SQLValidator._extract_tables, with the from_seen flag
made explicit; after each loop body, a token whose ttype is Keyword with
value FROM sets the flag. -/
def extract_tables_aux : List Tok → Bool → List String
  | [], _ => []
  | t :: rest, fromSeen =>
    (extract_step t fromSeen).1 ++
      extract_tables_aux rest (if isFromKw t then true else (extract_step t fromSeen).2)

/-- SQLValidator._extract_tables on a statement's token list. -/
def extract_tables (stmt : Statement) : List String := extract_tables_aux stmt false

/-- SQLValidator._check_blocked_tables: the extracted tables whose lower-cased
name lies in the configured blocked set (blocked is stored lower-cased). -/
def check_blocked_tables (blocked : List String) (stmt : Statement) : List String :=
  (extract_tables stmt).filter (fun t => lowerStr t ∈ blocked)

/-- SQLValidator._has_select_star: a top-level token of ttype Wildcard with
value "*". -/
def has_select_star (stmt : Statement) : Bool :=
  stmt.any (fun t =>
    match t with
    | .atom .wildcard v => v == "*"
    | _ => false)

/-- The validator's configuration state after __init__ (settings-derived
fields; allowed_operations stored upper-cased, blocked_tables lower-cased). -/
structure SQLValidator where
  allowed_operations : List String
  blocked_tables : List String
  max_query_cost : Rat
  max_rows_estimate : Int

/-- SQLValidator.__init__ from settings values: upper-cases the allowed
operations and lower-cases the blocked tables. -/
def SQLValidator.init (allowedOps blockedTab : List String)
    (maxCost : Rat) (maxRows : Int) : SQLValidator :=
  { allowed_operations := allowedOps.map upperStr
    blocked_tables := blockedTab.map lowerStr
    max_query_cost := maxCost
    max_rows_estimate := maxRows }

/-- app.models.QueryValidationResult (pydantic defaults: sql None, lists empty,
cost and rows None). -/
structure QueryValidationResult where
  is_valid : Bool
  sql : Option String := none
  errors : List String := []
  warnings : List String := []
  estimated_cost : Option Rat := none
  estimated_rows : Option Int := none

/-- Python ", ".join. -/
def joinComma (l : List String) : String := String.intercalate ", " l

/-- Decimal-free rendering of a Rat for interpolated messages (stands in for
Python float formatting; no claim depends on the rendered digits). -/
def ratStr (q : Rat) : String := toString q.num ++ "/" ++ toString q.den

/-- SQLValidator.validate.  parse is the sqlparse.parse oracle (error =
raised exception, ok = tuple of statements); probe is the _get_query_cost
oracle (error = raised exception, ok = (total cost, plan rows)).  Every
return statement of the source corresponds to one structure literal. -/
def validate (v : SQLValidator) (parse : String → Except String (List Statement))
    (probe : String → Except String (Rat × Int)) (sql : String) : QueryValidationResult :=
  if pyStrip sql = "" then
    { is_valid := false, errors := ["SQL query is empty"] }
  else
    match parse sql with
    | .error e =>
      { is_valid := false, errors := ["SQL parsing error: " ++ e] }
    | .ok [] =>
      { is_valid := false, errors := ["Failed to parse SQL query"] }
    | .ok (stmt :: more) =>
      if !more.isEmpty then
        { is_valid := false, errors := ["Multiple SQL statements are not allowed"] }
      else if get_statement_type stmt ∉ v.allowed_operations then
        { is_valid := false,
          errors := ["Operation \x27" ++ get_statement_type stmt ++
            "\x27 is not allowed. Only " ++ joinComma v.allowed_operations ++
            " operations are permitted"] }
      else if check_dangerous_keywords sql ≠ [] then
        { is_valid := false,
          errors := ["Dangerous keywords found: " ++ joinComma (check_dangerous_keywords sql)] }
      else if check_dangerous_patterns sql then
        { is_valid := false, errors := ["Dangerous patterns detected in SQL"] }
      else if check_blocked_tables v.blocked_tables stmt ≠ [] then
        { is_valid := false,
          errors := ["Access to blocked tables: " ++
            joinComma (check_blocked_tables v.blocked_tables stmt)] }
      else
        match probe sql with
        | .error e =>
          { is_valid := true, sql := some sql,
            warnings :=
              (if has_select_star stmt then ["Query uses SELECT * which may be inefficient"] else []) ++
              ["Could not estimate query cost: " ++ e] }
        | .ok (c, r) =>
          if c ≠ 0 ∧ c > v.max_query_cost then
            { is_valid := false,
              errors := ["Query cost estimate (" ++ ratStr c ++
                ") exceeds maximum allowed (" ++ ratStr v.max_query_cost ++ ")"],
              warnings :=
                (if has_select_star stmt then ["Query uses SELECT * which may be inefficient"] else []),
              estimated_cost := some c, estimated_rows := some r }
          else
            { is_valid := true, sql := some sql,
              warnings :=
                (if has_select_star stmt then ["Query uses SELECT * which may be inefficient"] else []) ++
                (if r ≠ 0 ∧ r > v.max_rows_estimate then
                  ["Query may return many rows (" ++ toString r ++ "), consider adding LIMIT"]
                else []),
              estimated_cost := some c, estimated_rows := some r }

/-! ## CostEstimator (apps/ml/app/services/cost_estimator.py)

The source parses the SQL only to index sqlparse.parse(sql)[0]; the parsed
value is otherwise unused by the computation, which works on the upper-cased
raw text, so the estimator is embedded as a total function of the text. -/

/-- CostEstimator.BASE_COST. -/
def BASE_COST : Rat := 1/10

/-- CostEstimator.COST_WEIGHTS as a partial map. -/
def COST_WEIGHTS : String → Option Rat
  | "JOIN" => some 2
  | "LEFT JOIN" => some 2
  | "RIGHT JOIN" => some 2
  | "INNER JOIN" => some 2
  | "OUTER JOIN" => some (5/2)
  | "CROSS JOIN" => some 5
  | "SUBQUERY" => some 3
  | "GROUP BY" => some (3/2)
  | "ORDER BY" => some (6/5)
  | "HAVING" => some (13/10)
  | "DISTINCT" => some (3/2)
  | "UNION" => some 2
  | "AGGREGATE" => some 1
  | _ => none

/-- COST_WEIGHTS.get(key, 2.0), the lookup used in the join loop. -/
def costWeight (k : String) : Rat := (COST_WEIGHTS k).getD 2

/-- The join_types list iterated by estimate_cost, in source order. -/
def JOIN_TYPES : List String :=
  ["CROSS JOIN", "LEFT JOIN", "RIGHT JOIN", "INNER JOIN", "OUTER JOIN", "JOIN"]

/-- The aggregate keywords counted by estimate_cost, in source order. -/
def AGGREGATES : List String := ["COUNT", "SUM", "AVG", "MIN", "MAX"]

/-- The (cost, factors) accumulation of CostEstimator.estimate_cost on the
upper-cased text, feature by feature in source order.  Each join type
contributes count * weight where count is a plain substring count of the
join-type text (so the text "JOIN" is also counted inside every two-word
join type). -/
def heuristic_cost_factors (sql : String) : Rat × List String :=
  let u := upperStr sql
  let s1 := JOIN_TYPES.foldl
    (fun (acc : Rat × List String) jt =>
      let c := countSub jt u
      if 0 < c then
        (acc.1 + (c : Rat) * costWeight jt, acc.2 ++ [toString c ++ " " ++ jt ++ "(s)"])
      else acc)
    (BASE_COST, [])
  let subq := countSub "SELECT" u - 1
  let s2 :=
    if 0 < subq then
      (s1.1 + (subq : Rat) * costWeight "SUBQUERY", s1.2 ++ [toString subq ++ " subquery(ies)"])
    else s1
  let s3 :=
    if containsSub "GROUP BY" u then (s2.1 + costWeight "GROUP BY", s2.2 ++ ["GROUP BY"]) else s2
  let s4 :=
    if containsSub "ORDER BY" u then (s3.1 + costWeight "ORDER BY", s3.2 ++ ["ORDER BY"]) else s3
  let s5 :=
    if containsSub "HAVING" u then (s4.1 + costWeight "HAVING", s4.2 ++ ["HAVING"]) else s4
  let s6 :=
    if containsSub "DISTINCT" u then (s5.1 + costWeight "DISTINCT", s5.2 ++ ["DISTINCT"]) else s5
  let s7 :=
    if containsSub "UNION" u then
      (s6.1 + (countSub "UNION" u : Rat) * costWeight "UNION",
       s6.2 ++ [toString (countSub "UNION" u) ++ " UNION(s)"])
    else s6
  let aggc := (AGGREGATES.map (fun a => countSub a u)).sum
  if 0 < aggc then
    (s7.1 + (aggc : Rat) * costWeight "AGGREGATE", s7.2 ++ [toString aggc ++ " aggregate(s)"])
  else s7

/-- The static heuristic cost of a SQL text (the local variable cost at the
end of the feature scan). -/
def heuristic_cost (sql : String) : Rat := (heuristic_cost_factors sql).1

/-- The dictionary returned by CostEstimator.estimate_cost. -/
structure CostEstimate where
  estimated_cost : Rat
  heuristic_cost : Rat
  actual_cost : Option Rat
  complexity_factors : List String
  complexity_level : String

/-- CostEstimator._get_complexity_level. -/
def get_complexity_level (cost : Rat) : String :=
  if cost < 2 then "LOW"
  else if cost < 5 then "MEDIUM"
  else if cost < 10 then "HIGH"
  else "VERY_HIGH"

/-- CostEstimator.estimate_cost.  The Python line
final_cost = actual_cost if actual_cost else cost
uses truthiness: an absent actual cost and an actual cost equal to 0.0 both
fall back to the heuristic cost.  complexity_level is computed from the
heuristic cost variable. -/
def estimate_cost (sql : String) (actual_cost : Option Rat := none) : CostEstimate :=
  let hf := heuristic_cost_factors sql
  { estimated_cost :=
      match actual_cost with
      | some a => if a = 0 then hf.1 else a
      | none => hf.1
    heuristic_cost := hf.1
    actual_cost := actual_cost
    complexity_factors := hf.2
    complexity_level := get_complexity_level hf.1 }

/-! ## QueryCache (apps/ml/app/services/query_cache.py) -/

/-- The combined string whose digest keys the cache:
f-string of org_id, ":", question.lower().strip(). -/
def get_cache_key_input (question org_id : String) : String :=
  org_id ++ ":" ++ pyStrip (lowerStr question)

/-- QueryCache._get_cache_key, with hashlib.sha256(...).hexdigest() supplied
as an oracle digest function applied to the combined string. -/
def get_cache_key (digest : String → String) (question org_id : String) : String :=
  "nl2sql:cache:" ++ digest (get_cache_key_input question org_id)


/-! ## Fixture values used by claims and witnesses -/

/-- The thirteen keywords named by claim C1 (the code's deny list additionally
contains CREATE). -/
def C1_KEYWORDS : List String :=
  ["DROP", "DELETE", "TRUNCATE", "ALTER", "INSERT", "UPDATE",
   "GRANT", "REVOKE", "EXEC", "EXECUTE", "CALL", "MERGE", "REPLACE"]

/-- A bare Name atom: the only token shape that can clear the from_seen flag
inside _extract_tables.  sqlparse's grouping pass wraps plain identifiers
into Identifier TokenLists, so statement-level token streams produced by
sqlparse.parse contain no such atom. -/
def isBareName : Tok → Bool
  | .atom .name _ => true
  | _ => false

/-! ## Shared concrete fixtures for witnesses -/

/-- A validator configured as in the demo settings: only SELECT allowed,
blocked tables users and secrets. -/
def vDemo : SQLValidator := SQLValidator.init ["SELECT"] ["users", "secrets"] 1000 10000

/-- A parse oracle returning one fixed statement for every input. -/
def parseTo (stmt : Statement) : String → Except String (List Statement) :=
  fun _ => .ok [stmt]

/-- A cost probe oracle whose connection always fails. -/
def probeDown : String → Except String (Rat × Int) := fun _ => .error "connection refused"

/-- Token stream of "SELECT A FROM B" as sqlparse shapes it (identifiers
wrapped in Identifier groups). -/
def stmtFromB : Statement :=
  [Tok.atom .dml "SELECT", Tok.atom .whitespace " ", Tok.group [Tok.atom .name "A"],
   Tok.atom .whitespace " ", Tok.atom .keyword "FROM", Tok.atom .whitespace " ",
   Tok.group [Tok.atom .name "B"]]

/-- Token stream of "SELECT A FROM USERS" as sqlparse shapes it. -/
def stmtFromUsers : Statement :=
  [Tok.atom .dml "SELECT", Tok.atom .whitespace " ", Tok.group [Tok.atom .name "A"],
   Tok.atom .whitespace " ", Tok.atom .keyword "FROM", Tok.atom .whitespace " ",
   Tok.group [Tok.atom .name "USERS"]]

/-- The prefix of the join witness statement before FROM. -/
def joinL1 : List Tok :=
  [Tok.atom .dml "SELECT", Tok.atom .whitespace " ", Tok.group [Tok.atom .name "A"],
   Tok.atom .whitespace " "]

/-- The tokens of the join witness statement between FROM and the joined
table: first table group, then the JOIN keyword. -/
def joinL2 : List Tok :=
  [Tok.atom .whitespace " ", Tok.group [Tok.atom .name "B"], Tok.atom .whitespace " ",
   Tok.atom .keyword "JOIN", Tok.atom .whitespace " "]

/-- The blocked table group referenced only after the JOIN keyword. -/
def joinG : List Tok := [Tok.atom .name "SECRETS"]

/-- Token stream of "SELECT A FROM B JOIN SECRETS" as sqlparse shapes it. -/
def stmtJoinSecrets : Statement := joinL1 ++ Tok.atom .keyword "FROM" :: (joinL2 ++ Tok.group joinG :: [])

end BI


namespace BI

/-! ## Helper evaluations of the static cost heuristic on concrete queries -/

set_option maxHeartbeats 2000000 in
/-- Evaluation of the heuristic cost on the text "SELECT A FROM B LEFT JOIN C". -/
theorem hc_left_join_example : heuristic_cost "SELECT A FROM B LEFT JOIN C" = 41/10 := by
  have h1 : countSub "CROSS JOIN" (upperStr "SELECT A FROM B LEFT JOIN C") = 0 := by decide
  have h2 : countSub "LEFT JOIN" (upperStr "SELECT A FROM B LEFT JOIN C") = 1 := by decide
  have h3 : countSub "RIGHT JOIN" (upperStr "SELECT A FROM B LEFT JOIN C") = 0 := by decide
  have h4 : countSub "INNER JOIN" (upperStr "SELECT A FROM B LEFT JOIN C") = 0 := by decide
  have h5 : countSub "OUTER JOIN" (upperStr "SELECT A FROM B LEFT JOIN C") = 0 := by decide
  have h6 : countSub "JOIN" (upperStr "SELECT A FROM B LEFT JOIN C") = 1 := by decide
  have h7 : countSub "SELECT" (upperStr "SELECT A FROM B LEFT JOIN C") = 1 := by decide
  have h8 : containsSub "GROUP BY" (upperStr "SELECT A FROM B LEFT JOIN C") = false := by decide
  have h9 : containsSub "ORDER BY" (upperStr "SELECT A FROM B LEFT JOIN C") = false := by decide
  have h10 : containsSub "HAVING" (upperStr "SELECT A FROM B LEFT JOIN C") = false := by decide
  have h11 : containsSub "DISTINCT" (upperStr "SELECT A FROM B LEFT JOIN C") = false := by decide
  have h12 : containsSub "UNION" (upperStr "SELECT A FROM B LEFT JOIN C") = false := by decide
  have h13 : countSub "COUNT" (upperStr "SELECT A FROM B LEFT JOIN C") = 0 := by decide
  have h14 : countSub "SUM" (upperStr "SELECT A FROM B LEFT JOIN C") = 0 := by decide
  have h15 : countSub "AVG" (upperStr "SELECT A FROM B LEFT JOIN C") = 0 := by decide
  have h16 : countSub "MIN" (upperStr "SELECT A FROM B LEFT JOIN C") = 0 := by decide
  have h17 : countSub "MAX" (upperStr "SELECT A FROM B LEFT JOIN C") = 0 := by decide
  simp only [heuristic_cost, heuristic_cost_factors, JOIN_TYPES, AGGREGATES,
    List.foldl_cons, List.foldl_nil, List.map_cons, List.map_nil, List.sum_cons,
    List.sum_nil, h1, h2, h3, h4, h5, h6, h7, h8, h9, h10, h11, h12, h13, h14, h15, h16, h17]
  norm_num [BASE_COST, costWeight, COST_WEIGHTS]

set_option maxHeartbeats 2000000 in
/-- Evaluation of the heuristic cost on the text "SELECT A FROM B CROSS JOIN C". -/
theorem hc_cross_join_example : heuristic_cost "SELECT A FROM B CROSS JOIN C" = 71/10 := by
  have h1 : countSub "CROSS JOIN" (upperStr "SELECT A FROM B CROSS JOIN C") = 1 := by decide
  have h2 : countSub "LEFT JOIN" (upperStr "SELECT A FROM B CROSS JOIN C") = 0 := by decide
  have h3 : countSub "RIGHT JOIN" (upperStr "SELECT A FROM B CROSS JOIN C") = 0 := by decide
  have h4 : countSub "INNER JOIN" (upperStr "SELECT A FROM B CROSS JOIN C") = 0 := by decide
  have h5 : countSub "OUTER JOIN" (upperStr "SELECT A FROM B CROSS JOIN C") = 0 := by decide
  have h6 : countSub "JOIN" (upperStr "SELECT A FROM B CROSS JOIN C") = 1 := by decide
  have h7 : countSub "SELECT" (upperStr "SELECT A FROM B CROSS JOIN C") = 1 := by decide
  have h8 : containsSub "GROUP BY" (upperStr "SELECT A FROM B CROSS JOIN C") = false := by decide
  have h9 : containsSub "ORDER BY" (upperStr "SELECT A FROM B CROSS JOIN C") = false := by decide
  have h10 : containsSub "HAVING" (upperStr "SELECT A FROM B CROSS JOIN C") = false := by decide
  have h11 : containsSub "DISTINCT" (upperStr "SELECT A FROM B CROSS JOIN C") = false := by decide
  have h12 : containsSub "UNION" (upperStr "SELECT A FROM B CROSS JOIN C") = false := by decide
  have h13 : countSub "COUNT" (upperStr "SELECT A FROM B CROSS JOIN C") = 0 := by decide
  have h14 : countSub "SUM" (upperStr "SELECT A FROM B CROSS JOIN C") = 0 := by decide
  have h15 : countSub "AVG" (upperStr "SELECT A FROM B CROSS JOIN C") = 0 := by decide
  have h16 : countSub "MIN" (upperStr "SELECT A FROM B CROSS JOIN C") = 0 := by decide
  have h17 : countSub "MAX" (upperStr "SELECT A FROM B CROSS JOIN C") = 0 := by decide
  simp only [heuristic_cost, heuristic_cost_factors, JOIN_TYPES, AGGREGATES,
    List.foldl_cons, List.foldl_nil, List.map_cons, List.map_nil, List.sum_cons,
    List.sum_nil, h1, h2, h3, h4, h5, h6, h7, h8, h9, h10, h11, h12, h13, h14, h15, h16, h17]
  norm_num [BASE_COST, costWeight, COST_WEIGHTS]

set_option maxHeartbeats 2000000 in
/-- Evaluation of the heuristic cost on the text "SELECT A FROM B OUTER JOIN C". -/
theorem hc_outer_join_example : heuristic_cost "SELECT A FROM B OUTER JOIN C" = 46/10 := by
  have h1 : countSub "CROSS JOIN" (upperStr "SELECT A FROM B OUTER JOIN C") = 0 := by decide
  have h2 : countSub "LEFT JOIN" (upperStr "SELECT A FROM B OUTER JOIN C") = 0 := by decide
  have h3 : countSub "RIGHT JOIN" (upperStr "SELECT A FROM B OUTER JOIN C") = 0 := by decide
  have h4 : countSub "INNER JOIN" (upperStr "SELECT A FROM B OUTER JOIN C") = 0 := by decide
  have h5 : countSub "OUTER JOIN" (upperStr "SELECT A FROM B OUTER JOIN C") = 1 := by decide
  have h6 : countSub "JOIN" (upperStr "SELECT A FROM B OUTER JOIN C") = 1 := by decide
  have h7 : countSub "SELECT" (upperStr "SELECT A FROM B OUTER JOIN C") = 1 := by decide
  have h8 : containsSub "GROUP BY" (upperStr "SELECT A FROM B OUTER JOIN C") = false := by decide
  have h9 : containsSub "ORDER BY" (upperStr "SELECT A FROM B OUTER JOIN C") = false := by decide
  have h10 : containsSub "HAVING" (upperStr "SELECT A FROM B OUTER JOIN C") = false := by decide
  have h11 : containsSub "DISTINCT" (upperStr "SELECT A FROM B OUTER JOIN C") = false := by decide
  have h12 : containsSub "UNION" (upperStr "SELECT A FROM B OUTER JOIN C") = false := by decide
  have h13 : countSub "COUNT" (upperStr "SELECT A FROM B OUTER JOIN C") = 0 := by decide
  have h14 : countSub "SUM" (upperStr "SELECT A FROM B OUTER JOIN C") = 0 := by decide
  have h15 : countSub "AVG" (upperStr "SELECT A FROM B OUTER JOIN C") = 0 := by decide
  have h16 : countSub "MIN" (upperStr "SELECT A FROM B OUTER JOIN C") = 0 := by decide
  have h17 : countSub "MAX" (upperStr "SELECT A FROM B OUTER JOIN C") = 0 := by decide
  simp only [heuristic_cost, heuristic_cost_factors, JOIN_TYPES, AGGREGATES,
    List.foldl_cons, List.foldl_nil, List.map_cons, List.map_nil, List.sum_cons,
    List.sum_nil, h1, h2, h3, h4, h5, h6, h7, h8, h9, h10, h11, h12, h13, h14, h15, h16, h17]
  norm_num [BASE_COST, costWeight, COST_WEIGHTS]

set_option maxHeartbeats 2000000 in
/-- Evaluation of the heuristic cost on the text "SELECT COUNT(X) FROM A CROSS JOIN B". -/
theorem hc_count_cross_example : heuristic_cost "SELECT COUNT(X) FROM A CROSS JOIN B" = 81/10 := by
  have h1 : countSub "CROSS JOIN" (upperStr "SELECT COUNT(X) FROM A CROSS JOIN B") = 1 := by decide
  have h2 : countSub "LEFT JOIN" (upperStr "SELECT COUNT(X) FROM A CROSS JOIN B") = 0 := by decide
  have h3 : countSub "RIGHT JOIN" (upperStr "SELECT COUNT(X) FROM A CROSS JOIN B") = 0 := by decide
  have h4 : countSub "INNER JOIN" (upperStr "SELECT COUNT(X) FROM A CROSS JOIN B") = 0 := by decide
  have h5 : countSub "OUTER JOIN" (upperStr "SELECT COUNT(X) FROM A CROSS JOIN B") = 0 := by decide
  have h6 : countSub "JOIN" (upperStr "SELECT COUNT(X) FROM A CROSS JOIN B") = 1 := by decide
  have h7 : countSub "SELECT" (upperStr "SELECT COUNT(X) FROM A CROSS JOIN B") = 1 := by decide
  have h8 : containsSub "GROUP BY" (upperStr "SELECT COUNT(X) FROM A CROSS JOIN B") = false := by decide
  have h9 : containsSub "ORDER BY" (upperStr "SELECT COUNT(X) FROM A CROSS JOIN B") = false := by decide
  have h10 : containsSub "HAVING" (upperStr "SELECT COUNT(X) FROM A CROSS JOIN B") = false := by decide
  have h11 : containsSub "DISTINCT" (upperStr "SELECT COUNT(X) FROM A CROSS JOIN B") = false := by decide
  have h12 : containsSub "UNION" (upperStr "SELECT COUNT(X) FROM A CROSS JOIN B") = false := by decide
  have h13 : countSub "COUNT" (upperStr "SELECT COUNT(X) FROM A CROSS JOIN B") = 1 := by decide
  have h14 : countSub "SUM" (upperStr "SELECT COUNT(X) FROM A CROSS JOIN B") = 0 := by decide
  have h15 : countSub "AVG" (upperStr "SELECT COUNT(X) FROM A CROSS JOIN B") = 0 := by decide
  have h16 : countSub "MIN" (upperStr "SELECT COUNT(X) FROM A CROSS JOIN B") = 0 := by decide
  have h17 : countSub "MAX" (upperStr "SELECT COUNT(X) FROM A CROSS JOIN B") = 0 := by decide
  simp only [heuristic_cost, heuristic_cost_factors, JOIN_TYPES, AGGREGATES,
    List.foldl_cons, List.foldl_nil, List.map_cons, List.map_nil, List.sum_cons,
    List.sum_nil, h1, h2, h3, h4, h5, h6, h7, h8, h9, h10, h11, h12, h13, h14, h15, h16, h17]
  norm_num [BASE_COST, costWeight, COST_WEIGHTS]

set_option maxHeartbeats 2000000 in
/-- Evaluation of the heuristic cost on the text "SELECT X FROM T". -/
theorem hc_plain_example : heuristic_cost "SELECT X FROM T" = 1/10 := by
  have h1 : countSub "CROSS JOIN" (upperStr "SELECT X FROM T") = 0 := by decide
  have h2 : countSub "LEFT JOIN" (upperStr "SELECT X FROM T") = 0 := by decide
  have h3 : countSub "RIGHT JOIN" (upperStr "SELECT X FROM T") = 0 := by decide
  have h4 : countSub "INNER JOIN" (upperStr "SELECT X FROM T") = 0 := by decide
  have h5 : countSub "OUTER JOIN" (upperStr "SELECT X FROM T") = 0 := by decide
  have h6 : countSub "JOIN" (upperStr "SELECT X FROM T") = 0 := by decide
  have h7 : countSub "SELECT" (upperStr "SELECT X FROM T") = 1 := by decide
  have h8 : containsSub "GROUP BY" (upperStr "SELECT X FROM T") = false := by decide
  have h9 : containsSub "ORDER BY" (upperStr "SELECT X FROM T") = false := by decide
  have h10 : containsSub "HAVING" (upperStr "SELECT X FROM T") = false := by decide
  have h11 : containsSub "DISTINCT" (upperStr "SELECT X FROM T") = false := by decide
  have h12 : containsSub "UNION" (upperStr "SELECT X FROM T") = false := by decide
  have h13 : countSub "COUNT" (upperStr "SELECT X FROM T") = 0 := by decide
  have h14 : countSub "SUM" (upperStr "SELECT X FROM T") = 0 := by decide
  have h15 : countSub "AVG" (upperStr "SELECT X FROM T") = 0 := by decide
  have h16 : countSub "MIN" (upperStr "SELECT X FROM T") = 0 := by decide
  have h17 : countSub "MAX" (upperStr "SELECT X FROM T") = 0 := by decide
  simp only [heuristic_cost, heuristic_cost_factors, JOIN_TYPES, AGGREGATES,
    List.foldl_cons, List.foldl_nil, List.map_cons, List.map_nil, List.sum_cons,
    List.sum_nil, h1, h2, h3, h4, h5, h6, h7, h8, h9, h10, h11, h12, h13, h14, h15, h16, h17]
  norm_num [BASE_COST, costWeight, COST_WEIGHTS]

end BI

namespace BI

/-! ## Helper lemmas about table extraction and the validator pipeline -/


theorem extract_tables_aux_cons (t : Tok) (rest : List Tok) (fs : Bool) :
    extract_tables_aux (t :: rest) fs =
      (extract_step t fs).1 ++
        extract_tables_aux rest (if isFromKw t then true else (extract_step t fs).2) := rfl

/-- The walk over l ++ rest factors into a prefix of output and a
continuation on rest from some flag state. -/
theorem extract_tables_aux_split (l : List Tok) : ∀ (rest : List Tok) (fs : Bool),
    ∃ p fs2, extract_tables_aux (l ++ rest) fs = p ++ extract_tables_aux rest fs2 := by
  induction l with
  | nil => exact fun rest fs => ⟨[], fs, rfl⟩
  | cons t l ih =>
    intro rest fs
    obtain ⟨p, fs2, hp⟩ := ih rest (if isFromKw t then true else (extract_step t fs).2)
    exact ⟨(extract_step t fs).1 ++ p, fs2, by
      rw [List.cons_append, extract_tables_aux_cons, hp, List.append_assoc]⟩

/-- Walking past a FROM keyword token sets the flag, whatever it was. -/
theorem extract_tables_aux_from (ft : Tok) (hft : isFromKw ft = true)
    (rest : List Tok) (fs : Bool) :
    extract_tables_aux (ft :: rest) fs = extract_tables_aux rest true := by
  have hstep : (extract_step ft fs).1 = [] := by
    cases ft with
    | group sub => simp [isFromKw] at hft
    | atom tt v =>
      cases tt <;> simp [isFromKw] at hft <;>
        cases fs <;> simp [extract_step]
  rw [extract_tables_aux_cons, hstep, List.nil_append, hft]
  rfl

/-- While the flag is set, walking over tokens none of which is a bare Name
atom preserves every name found by the continuation (the flag never clears). -/
theorem extract_tables_aux_extend (l2 : List Tok) : ∀ (rest : List Tok) (x : String),
    (∀ t ∈ l2, isBareName t = false) →
    x ∈ extract_tables_aux rest true → x ∈ extract_tables_aux (l2 ++ rest) true := by
  induction l2 with
  | nil => exact fun rest x _ hx => hx
  | cons t l ih =>
    intro rest x h hx
    have ht : isBareName t = false := h t (by simp)
    have hl : ∀ u ∈ l, isBareName u = false := fun u hu => h u (by simp [hu])
    rw [List.cons_append, extract_tables_aux_cons]
    have hflag : (if isFromKw t then true else (extract_step t true).2) = true := by
      cases t with
      | group sub => simp [extract_step, isFromKw]
      | atom tt v =>
        cases tt <;> simp_all [isBareName, extract_step, isFromKw]
    rw [hflag]
    exact List.mem_append_right _ (ih rest x hl hx)

/-- With the flag set, a TokenList at the head contributes all its
collectible sub-tokens to the extraction output. -/
theorem mem_extract_tables_aux_group (g l3 : List Tok) (x : String)
    (hx : x ∈ collectFromGroup g) :
    x ∈ extract_tables_aux (Tok.group g :: l3) true := by
  rw [extract_tables_aux_cons]
  exact List.mem_append_left _ (by simpa [extract_step] using hx)

/-- If the single parsed statement references a blocked table, validate can
never return a valid result. -/
theorem validate_blocked_invalid (v : SQLValidator)
    (parse : String → Except String (List Statement))
    (probe : String → Except String (Rat × Int)) (sql : String) (stmt : Statement)
    (hp : parse sql = .ok [stmt])
    (hb : check_blocked_tables v.blocked_tables stmt ≠ []) :
    (validate v parse probe sql).is_valid = false := by
  unfold validate
  simp only [hp]
  repeat' split
  all_goals first | rfl | simp_all

end BI

namespace BI

/-! ## Claims -/


/-- C1: for every SQL string containing one of the deny-listed keywords DROP,
DELETE, TRUNCATE, ALTER, INSERT, UPDATE, GRANT, REVOKE, EXEC, EXECUTE, CALL,
MERGE or REPLACE as a whole word (in particular every top-level occurrence),
validate returns a result with is_valid = false, for every parse and cost
oracle and every validator configuration. -/
theorem c1_dangerous_keyword_rejected (v : SQLValidator)
    (parse : String → Except String (List Statement))
    (probe : String → Except String (Rat × Int)) (sql kw : String)
    (hkw : kw ∈ C1_KEYWORDS) (hit : containsWord kw (upperStr sql) = true) :
    (validate v parse probe sql).is_valid = false := by
  have hmem : kw ∈ DANGEROUS_KEYWORDS := by
    have hsub : ∀ k ∈ C1_KEYWORDS, k ∈ DANGEROUS_KEYWORDS := by decide
    exact hsub kw hkw
  have hne : check_dangerous_keywords sql ≠ [] :=
    List.ne_nil_of_mem (List.mem_filter.mpr ⟨hmem, hit⟩)
  unfold validate
  repeat' split
  all_goals first | rfl | simp_all

/-- Witness for C1 at the concrete input "DROP TABLE X" with keyword DROP. -/
theorem c1_witness :
    (validate (SQLValidator.init ["SELECT"] [] 1000 10000)
      (fun _ => .ok []) (fun _ => .error "down") "DROP TABLE X").is_valid = false :=
  c1_dangerous_keyword_rejected (SQLValidator.init ["SELECT"] [] 1000 10000)
    (fun _ => .ok []) (fun _ => .error "down") "DROP TABLE X" "DROP"
    (by decide) (by decide)

/-- C5: every result returned by validate satisfies the data-model invariant:
an invalid result has a non-empty error list and no sql field; a valid result
has an empty error list and carries the input text in its sql field. -/
theorem c5_result_invariant (v : SQLValidator)
    (parse : String → Except String (List Statement))
    (probe : String → Except String (Rat × Int)) (sql : String) :
    ((validate v parse probe sql).is_valid = false →
      (validate v parse probe sql).errors ≠ [] ∧ (validate v parse probe sql).sql = none) ∧
    ((validate v parse probe sql).is_valid = true →
      (validate v parse probe sql).errors = [] ∧ (validate v parse probe sql).sql = some sql) := by
  unfold validate
  repeat' split
  all_goals simp

/-- Witness for C5 at the concrete empty input (an invalid result). -/
theorem c5_witness :
    (validate (SQLValidator.init ["SELECT"] [] 1000 10000)
      (fun _ => .ok []) (fun _ => .error "down") "").errors ≠ [] ∧
    (validate (SQLValidator.init ["SELECT"] [] 1000 10000)
      (fun _ => .ok []) (fun _ => .error "down") "").sql = none :=
  (c5_result_invariant (SQLValidator.init ["SELECT"] [] 1000 10000)
    (fun _ => .ok []) (fun _ => .error "down") "").1 (by decide)

/-- C10: an invalid result always carries exactly one error message: every
failing check of validate returns immediately, so errors never accumulates. -/
theorem c10_single_error (v : SQLValidator)
    (parse : String → Except String (List Statement))
    (probe : String → Except String (Rat × Int)) (sql : String)
    (h : (validate v parse probe sql).is_valid = false) :
    (validate v parse probe sql).errors.length = 1 := by
  revert h
  unfold validate
  repeat' split
  all_goals simp

/-- Witness for C10 at a concrete unparseable input. -/
theorem c10_witness :
    (validate (SQLValidator.init ["SELECT"] [] 1000 10000)
      (fun _ => .ok []) (fun _ => .error "down") "SELECT A FROM B").errors.length = 1 :=
  c10_single_error (SQLValidator.init ["SELECT"] [] 1000 10000)
    (fun _ => .ok []) (fun _ => .error "down") "SELECT A FROM B" (by decide)

end BI

namespace BI


/-- C4: when a query would trigger both a danger check and the blocked-table
check, validate reports the danger rejection reason: with the statement type
allowed and a blocked table referenced, a non-empty dangerous-keyword match
produces exactly the dangerous-keyword error, and with no keyword match a
dangerous-pattern match produces exactly the dangerous-pattern error — the
blocked-table error is never the one reported. -/
theorem c4_danger_before_blocked (v : SQLValidator)
    (parse : String → Except String (List Statement))
    (probe : String → Except String (Rat × Int)) (sql : String) (stmt : Statement)
    (hne : pyStrip sql ≠ "")
    (hp : parse sql = .ok [stmt])
    (hop : get_statement_type stmt ∈ v.allowed_operations)
    (hbl : check_blocked_tables v.blocked_tables stmt ≠ []) :
    (check_dangerous_keywords sql ≠ [] →
      (validate v parse probe sql).errors =
        ["Dangerous keywords found: " ++ joinComma (check_dangerous_keywords sql)]) ∧
    (check_dangerous_keywords sql = [] → check_dangerous_patterns sql = true →
      (validate v parse probe sql).errors = ["Dangerous patterns detected in SQL"]) := by
  unfold validate
  simp only [hp]
  rw [if_neg hne]
  constructor
  · intro hdk
    simp [hop, hdk]
  · intro hdk hdp
    simp [hop, hdk, hdp]

/-- Witness for C4 at the concrete input "SELECT A FROM USERS DROP": the
query references blocked table USERS and contains the keyword DROP, and the
reported error is the dangerous-keyword one. -/
theorem c4_witness :
    (validate vDemo (parseTo stmtFromUsers) probeDown "SELECT A FROM USERS DROP").errors =
      ["Dangerous keywords found: DROP"] := by
  have h :=
    (c4_danger_before_blocked vDemo (parseTo stmtFromUsers) probeDown
      "SELECT A FROM USERS DROP" stmtFromUsers
      (by decide) rfl (by decide) (by decide)).1 (by decide)
  rw [h]
  decide

/-- C6: when every check up to the cost probe passes and the live cost probe
raises, validate appends the warning that cost could not be estimated and
still returns a valid result — probe failure is never a hard rejection. -/
theorem c6_probe_failure_soft (v : SQLValidator)
    (parse : String → Except String (List Statement))
    (probe : String → Except String (Rat × Int)) (sql : String) (stmt : Statement) (e : String)
    (hne : pyStrip sql ≠ "")
    (hp : parse sql = .ok [stmt])
    (hop : get_statement_type stmt ∈ v.allowed_operations)
    (hdk : check_dangerous_keywords sql = [])
    (hdp : check_dangerous_patterns sql = false)
    (hbt : check_blocked_tables v.blocked_tables stmt = [])
    (hprobe : probe sql = .error e) :
    (validate v parse probe sql).is_valid = true ∧
    ("Could not estimate query cost: " ++ e) ∈ (validate v parse probe sql).warnings := by
  unfold validate
  simp only [hp, hprobe]
  rw [if_neg hne]
  simp [hop, hdk, hdp, hbt]

/-- Witness for C6 at the concrete input "SELECT A FROM B" with an unreachable
cost probe. -/
theorem c6_witness :
    (validate vDemo (parseTo stmtFromB) probeDown "SELECT A FROM B").is_valid = true ∧
    ("Could not estimate query cost: " ++ "connection refused") ∈
      (validate vDemo (parseTo stmtFromB) probeDown "SELECT A FROM B").warnings :=
  c6_probe_failure_soft vDemo (parseTo stmtFromB) probeDown "SELECT A FROM B" stmtFromB
    "connection refused" (by decide) rfl (by decide) (by decide) (by decide) (by decide) rfl

/-- C2: on a sqlparse-shaped statement token stream (identifier tokens are
wrapped into TokenLists by sqlparse's grouping pass, so no bare Name atom
occurs between the FROM keyword and a later table group), every table name
collectible from a TokenList that follows the top-level FROM keyword — in
particular one that follows a later JOIN keyword — is found by table
extraction; if that name is blocked it appears in the blocked-table check's
result and validate then never accepts the query. -/
theorem c2_table_after_join_found (v : SQLValidator)
    (parse : String → Except String (List Statement))
    (probe : String → Except String (Rat × Int)) (sql : String)
    (l1 l2 l3 g : List Tok) (ft : Tok) (T : String)
    (hft : isFromKw ft = true)
    (hl2 : ∀ t ∈ l2, isBareName t = false)
    (hT : T ∈ collectFromGroup g)
    (hblocked : lowerStr T ∈ v.blocked_tables)
    (hp : parse sql = .ok [l1 ++ ft :: (l2 ++ Tok.group g :: l3)]) :
    T ∈ extract_tables (l1 ++ ft :: (l2 ++ Tok.group g :: l3)) ∧
    T ∈ check_blocked_tables v.blocked_tables (l1 ++ ft :: (l2 ++ Tok.group g :: l3)) ∧
    (validate v parse probe sql).is_valid = false := by
  have hmem : T ∈ extract_tables (l1 ++ ft :: (l2 ++ Tok.group g :: l3)) := by
    unfold extract_tables
    obtain ⟨p, fs2, hsplit⟩ :=
      extract_tables_aux_split l1 (ft :: (l2 ++ Tok.group g :: l3)) false
    rw [hsplit, extract_tables_aux_from ft hft]
    exact List.mem_append_right _
      (extract_tables_aux_extend l2 (Tok.group g :: l3) T hl2
        (mem_extract_tables_aux_group g l3 T hT))
  have hcb : T ∈ check_blocked_tables v.blocked_tables (l1 ++ ft :: (l2 ++ Tok.group g :: l3)) :=
    List.mem_filter.mpr ⟨hmem, by simp [hblocked]⟩
  exact ⟨hmem, hcb,
    validate_blocked_invalid v parse probe sql _ hp (List.ne_nil_of_mem hcb)⟩


/-- Witness for C2 at the concrete query "SELECT A FROM B JOIN SECRETS" with
blocked table secrets. -/
theorem c2_witness :
    "SECRETS" ∈ extract_tables stmtJoinSecrets ∧
    "SECRETS" ∈ check_blocked_tables vDemo.blocked_tables stmtJoinSecrets ∧
    (validate vDemo (parseTo stmtJoinSecrets) probeDown
      "SELECT A FROM B JOIN SECRETS").is_valid = false :=
  c2_table_after_join_found vDemo (parseTo stmtJoinSecrets) probeDown
    "SELECT A FROM B JOIN SECRETS" joinL1 joinL2 [] joinG (Tok.atom .keyword "FROM") "SECRETS"
    (by decide) (by decide) (by decide) (by decide) rfl

end BI

namespace BI

/-- String concatenation acts as list concatenation on the underlying data. -/
theorem string_data_append (a b : String) : (a ++ b).data = a.data ++ b.data := rfl

/-- The data of the one-character separator string. -/
theorem colon_data : (":" : String).data = [':'] := rfl

/-- Lists that contain no colon are determined by a colon-terminated prefix:
if a ++ (colon :: s1) = b ++ (colon :: s2) and neither a nor b contains a
colon, then a = b. -/
theorem colon_free_append_inj (a : List Char) : ∀ (b s1 s2 : List Char),
    ':' ∉ a → ':' ∉ b → a ++ ':' :: s1 = b ++ ':' :: s2 → a = b := by
  induction a with
  | nil =>
    intro b s1 s2 _ hb h
    cases b with
    | nil => rfl
    | cons d bs =>
      simp only [List.nil_append, List.cons_append, List.cons.injEq] at h
      exact absurd (h.1 ▸ List.mem_cons_self d bs) hb
  | cons c as ih =>
    intro b s1 s2 ha hb h
    cases b with
    | nil =>
      simp only [List.cons_append, List.nil_append, List.cons.injEq] at h
      exact absurd (h.1 ▸ List.mem_cons_self c as) ha
    | cons d bs =>
      simp only [List.cons_append, List.cons.injEq] at h
      have hrec := ih bs s1 s2 (fun hm => ha (List.mem_cons_of_mem c hm))
        (fun hm => hb (List.mem_cons_of_mem d hm)) h.2
      rw [h.1, hrec]

/-- C3 counterexample: two distinct organization ids whose cache-key digest
inputs coincide (the id "a:x" with question "q" and the id "a" with question
"x:q" both produce the combined string "a:x:q"), so the derived keys are
equal for any digest function — exhibited with the identity digest. -/
theorem c3_counterexample :
    get_cache_key id "q" "a:x" = get_cache_key id "x:q" "a" ∧
    get_cache_key_input "q" "a:x" = get_cache_key_input "x:q" "a" ∧
    ("a:x" : String) ≠ "a" := by
  refine ⟨by decide, by decide, by decide⟩

/-- C3 (amended): key derivation is a deterministic digest of the combined
string org_id ++ ":" ++ lower-cased-and-trimmed question, and the combined
strings — hence the keys, barring digest collisions — are distinct for any
two distinct organization ids that contain no colon character. -/
theorem c3_amended_injectivity (digest : String → String) (q1 q2 o1 o2 : String)
    (hne : o1 ≠ o2) (h1 : ':' ∉ o1.data) (h2 : ':' ∉ o2.data) :
    get_cache_key_input q1 o1 ≠ get_cache_key_input q2 o2 ∧
    get_cache_key digest q1 o1 = "nl2sql:cache:" ++ digest (get_cache_key_input q1 o1) := by
  refine ⟨?_, rfl⟩
  intro h
  apply hne
  have hd0 := congrArg String.data h
  simp only [get_cache_key_input, string_data_append, colon_data, List.append_assoc,
    List.singleton_append] at hd0
  exact String.ext (colon_free_append_inj o1.data o2.data _ _ h1 h2 hd0)

/-- Witness for C3's amended statement at organization ids "a" and "b". -/
theorem c3_amended_witness :
    get_cache_key_input "q" "a" ≠ get_cache_key_input "q" "b" ∧
    get_cache_key id "q" "a" = "nl2sql:cache:" ++ id (get_cache_key_input "q" "a") :=
  c3_amended_injectivity id "q" "q" "a" "b" (by decide) (by decide) (by decide)

/-- C7: the complexity level reported by estimate_cost is derived from the
heuristic cost alone, via the thresholds 2.0, 5.0 and 10.0, even when an
actual cost is supplied; concretely, the query
"SELECT COUNT(X) FROM A CROSS JOIN B" has heuristic cost 8.1 and with a
supplied actual cost of 1.0 reports level HIGH while estimated_cost is 1.0. -/
theorem c7_complexity_from_heuristic :
    (∀ (sql : String) (a : Option Rat),
      (estimate_cost sql a).complexity_level = get_complexity_level (heuristic_cost sql) ∧
      get_complexity_level (heuristic_cost sql) =
        (if heuristic_cost sql < 2 then "LOW"
         else if heuristic_cost sql < 5 then "MEDIUM"
         else if heuristic_cost sql < 10 then "HIGH"
         else "VERY_HIGH")) ∧
    (estimate_cost "SELECT COUNT(X) FROM A CROSS JOIN B" (some 1)).heuristic_cost = 81/10 ∧
    (estimate_cost "SELECT COUNT(X) FROM A CROSS JOIN B" (some 1)).complexity_level = "HIGH" ∧
    (estimate_cost "SELECT COUNT(X) FROM A CROSS JOIN B" (some 1)).estimated_cost = 1 := by
  refine ⟨fun sql a => ⟨rfl, rfl⟩, hc_count_cross_example, ?_, ?_⟩
  · show get_complexity_level (heuristic_cost "SELECT COUNT(X) FROM A CROSS JOIN B") = "HIGH"
    rw [hc_count_cross_example]
    simp only [get_complexity_level]
    norm_num
  · show (if (1 : Rat) = 0 then heuristic_cost "SELECT COUNT(X) FROM A CROSS JOIN B" else 1) = 1
    norm_num

/-- C8 counterexample: with a supplied actual cost of 0.0 the code's
truthiness test falls back to the heuristic cost, so estimated_cost is 0.1
rather than the supplied 0.0. -/
theorem c8_counterexample :
    (estimate_cost "SELECT X FROM T" (some 0)).actual_cost = some 0 ∧
    (estimate_cost "SELECT X FROM T" (some 0)).estimated_cost = 1/10 ∧
    (1/10 : Rat) ≠ 0 := by
  refine ⟨rfl, ?_, by norm_num⟩
  show (if (0 : Rat) = 0 then heuristic_cost "SELECT X FROM T" else 0) = 1/10
  rw [if_pos rfl, hc_plain_example]

/-- C8 (amended): estimate_cost sets estimated_cost to the supplied actual
cost exactly when one is present and non-zero; an absent actual cost and an
actual cost equal to 0.0 both yield the heuristic cost. -/
theorem c8_amended_truthiness (sql : String) (a : Rat) :
    ((estimate_cost sql (some a)).estimated_cost =
      if a = 0 then (estimate_cost sql (some a)).heuristic_cost else a) ∧
    (estimate_cost sql none).estimated_cost = (estimate_cost sql none).heuristic_cost :=
  ⟨rfl, rfl⟩

/-- C9 counterexample: a query with exactly one LEFT JOIN and no other cost
feature has heuristic cost 4.1, not the base cost plus 2.0 = 2.1 that the
claim predicts, because the substring JOIN inside LEFT JOIN is counted again
by the plain-JOIN scan. -/
theorem c9_counterexample :
    heuristic_cost "SELECT A FROM B LEFT JOIN C" = 41/10 ∧
    BASE_COST + 2 ≠ (41/10 : Rat) :=
  ⟨hc_left_join_example, by norm_num [BASE_COST]⟩

/-- C9 (amended): each join occurrence contributes the weight of its specific
join kind PLUS the plain-JOIN weight 2.0, because the substring count of
"JOIN" also matches inside every two-word join keyword: one LEFT JOIN costs
2.0 + 2.0, one CROSS JOIN costs 5.0 + 2.0, one OUTER JOIN costs 2.5 + 2.0,
on top of the base cost. -/
theorem c9_amended_double_count :
    heuristic_cost "SELECT A FROM B LEFT JOIN C" =
      BASE_COST + costWeight "LEFT JOIN" + costWeight "JOIN" ∧
    heuristic_cost "SELECT A FROM B CROSS JOIN C" =
      BASE_COST + costWeight "CROSS JOIN" + costWeight "JOIN" ∧
    heuristic_cost "SELECT A FROM B OUTER JOIN C" =
      BASE_COST + costWeight "OUTER JOIN" + costWeight "JOIN" := by
  have w1 : costWeight "LEFT JOIN" = 2 := rfl
  have w2 : costWeight "JOIN" = 2 := rfl
  have w3 : costWeight "CROSS JOIN" = 5 := rfl
  have w4 : costWeight "OUTER JOIN" = 5/2 := rfl
  refine ⟨?_, ?_, ?_⟩
  · rw [hc_left_join_example, w1, w2]; norm_num [BASE_COST]
  · rw [hc_cross_join_example, w3, w2]; norm_num [BASE_COST]
  · rw [hc_outer_join_example, w4, w2]; norm_num [BASE_COST]

end BI
